import Mathlib

/-!
Shallow embedding of `app.py` (Streamlit clustering front-end) and proofs
about the claims of its specification.

The program's pure logic is embedded as executable Lean definitions:
  * Python decimal formatting of naturals (used by the f-string in
    `get_model_signature`) is `decimalString`;
  * pandas cell values are `Value` (an integer or a string, matching the
    two possible dtypes of the predicted `Cluster` column);
  * a dataframe is a column list plus a list of association-list rows;
  * the Streamlit render pass is a list of `Ev` output events;
  * `st.stop()` after `st.error` is an `Except.error` outcome;
  * filesystem state (which files exist, what `stat` returns) is an
    explicit environment record.
-/

namespace FindFriends

/-! ### Decimal rendering of naturals, as Python's str()/f-string does -/

/-- Decimal digits of `n`, most significant first (`str(n)` digit by digit). -/
def natDigits (n : Nat) : List Nat :=
  if _h : n < 10 then [n]
  else natDigits (n / 10) ++ [n % 10]
decreasing_by
  exact Nat.div_lt_self (by omega) (by omega)

theorem natDigits_all_lt (n : Nat) : ∀ d ∈ natDigits n, d < 10 := by
  induction n using Nat.strong_induction_on with
  | _ n ih =>
    unfold natDigits
    split
    · intro d hd
      simp only [List.mem_singleton] at hd
      omega
    · intro d hd
      rw [List.mem_append] at hd
      rcases hd with hd | hd
      · exact ih (n / 10) (Nat.div_lt_self (by omega) (by omega)) d hd
      · simp only [List.mem_singleton] at hd
        subst hd
        exact Nat.mod_lt _ (by omega)

theorem natDigits_foldl (n : Nat) :
    ∀ a : Nat, (natDigits n).foldl (fun x d => x * 10 + d) a
      = a * 10 ^ (natDigits n).length + n := by
  induction n using Nat.strong_induction_on with
  | _ n ih =>
    intro a
    unfold natDigits
    split
    · simp [List.foldl]
    · rw [List.foldl_append]
      rw [ih (n / 10) (Nat.div_lt_self (by omega) (by omega)) a]
      simp only [List.foldl, List.length_append, List.length_singleton]
      have hp : 10 ^ ((natDigits (n / 10)).length + 1)
          = 10 ^ (natDigits (n / 10)).length * 10 := by
        rw [Nat.pow_succ]
      rw [hp]
      have hdm : n / 10 * 10 + n % 10 = n := by omega
      calc (a * 10 ^ (natDigits (n / 10)).length + n / 10) * 10 + n % 10
          = a * (10 ^ (natDigits (n / 10)).length * 10) + (n / 10 * 10 + n % 10) := by ring
        _ = a * (10 ^ (natDigits (n / 10)).length * 10) + n := by rw [hdm]

theorem natDigits_inj {m n : Nat} (h : natDigits m = natDigits n) : m = n := by
  have hm := natDigits_foldl m 0
  have hn := natDigits_foldl n 0
  rw [h] at hm
  simp only [Nat.zero_mul, Nat.zero_add] at hm hn
  omega

/-- The character of a single decimal digit (`Nat.digitChar` restricted to 0..9). -/
def digitCharOf (d : Nat) : Char :=
  match d with
  | 0 => '0' | 1 => '1' | 2 => '2' | 3 => '3' | 4 => '4'
  | 5 => '5' | 6 => '6' | 7 => '7' | 8 => '8' | _ => '9'

theorem digitCharOf_ne_colon (d : Nat) : digitCharOf d ≠ ':' := by
  unfold digitCharOf
  split <;> decide

theorem digitCharOf_inj {d e : Nat} (hd : d < 10) (he : e < 10)
    (h : digitCharOf d = digitCharOf e) : d = e := by
  interval_cases d <;> interval_cases e <;> first | rfl | exact absurd h (by decide)

theorem map_digitCharOf_inj : ∀ {xs ys : List Nat},
    (∀ d ∈ xs, d < 10) → (∀ d ∈ ys, d < 10) →
    xs.map digitCharOf = ys.map digitCharOf → xs = ys
  | [], [], _, _, _ => rfl
  | [], _ :: _, _, _, h => by simp at h
  | _ :: _, [], _, _, h => by simp at h
  | x :: xs, y :: ys, hx, hy, h => by
    simp only [List.map_cons, List.cons.injEq] at h
    have hxy : x = y :=
      digitCharOf_inj (hx x (by simp)) (hy y (by simp)) h.1
    have htl : xs = ys :=
      map_digitCharOf_inj (fun d hd => hx d (by simp [hd]))
        (fun d hd => hy d (by simp [hd])) h.2
    rw [hxy, htl]

/-- `str(n)` for a natural number: its decimal digit string. -/
def decimalString (n : Nat) : String :=
  String.mk ((natDigits n).map digitCharOf)

theorem colon_not_mem_decimal (n : Nat) :
    ':' ∉ (natDigits n).map digitCharOf := by
  intro hmem
  rcases List.mem_map.mp hmem with ⟨d, _, hd⟩
  exact digitCharOf_ne_colon d hd

theorem decimalString_inj {m n : Nat} (h : decimalString m = decimalString n) :
    m = n := by
  unfold decimalString at h
  have hdata : (natDigits m).map digitCharOf = (natDigits n).map digitCharOf := by
    injection h
  exact natDigits_inj
    (map_digitCharOf_inj (natDigits_all_lt m) (natDigits_all_lt n) hdata)

/-- Splitting a character list at a separator absent from both prefixes is unique. -/
theorem append_sep_inj {xs : List Char} : ∀ {xs' ys ys' : List Char},
    ':' ∉ xs → ':' ∉ xs' →
    xs ++ ':' :: ys = xs' ++ ':' :: ys' → xs = xs' ∧ ys = ys' := by
  induction xs with
  | nil =>
    intro xs' ys ys' _ h2 h
    cases xs' with
    | nil => simpa using h
    | cons x' t' =>
      simp only [List.nil_append, List.cons_append, List.cons.injEq] at h
      exact absurd (h.1 ▸ List.mem_cons_self x' t') h2
  | cons x t ih =>
    intro xs' ys ys' h1 h2 h
    cases xs' with
    | nil =>
      simp only [List.nil_append, List.cons_append, List.cons.injEq] at h
      exact absurd (h.1.symm ▸ List.mem_cons_self x t) h1
    | cons x' t' =>
      simp only [List.cons_append, List.cons.injEq] at h
      have htl := ih (fun hm => h1 (List.mem_cons_of_mem x hm))
        (fun hm => h2 (List.mem_cons_of_mem x' hm)) h.2
      exact ⟨by rw [h.1, htl.1], htl.2⟩

/-! ### Cell values (pandas scalars that matter here: ints and strings) -/

/-- A pandas cell value relevant to this app: the predicted `Cluster` ids are
either integer-typed or string-typed, the five form fields are strings. -/
inductive Value where
  | int (n : Int)
  | str (s : String)
deriving DecidableEq, Repr

/-- Python `==` between two scalars as pandas applies it elementwise:
equal-typed values compare by value, mixed `int`/`str` compare unequal
(no exception, simply `False`). -/
def valueEq : Value → Value → Bool
  | .int a, .int b => a == b
  | .str a, .str b => a == b
  | _, _ => false

/-- Lexicographic order on character lists by code point — Python's `<=`
on strings, the order pandas uses for an object column of strings. -/
def charListLe : List Char → List Char → Bool
  | [], _ => true
  | _ :: _, [] => false
  | x :: xs, y :: ys =>
    if x.toNat < y.toNat then true
    else if y.toNat < x.toNat then false
    else charListLe xs ys

/-- The ordering pandas `sort_values` uses on the column values: strings
lexicographically, integer cells numerically. The mixed cases are given a
fixed arbitrary answer (pandas would raise on a mixed column; no claim
depends on them). -/
def valueLe : Value → Value → Bool
  | .int a, .int b => a ≤ b
  | .str a, .str b => charListLe a.data b.data
  | .int _, .str _ => true
  | .str _, .int _ => false

/-- Python `str(v)`: the identity on strings, decimal rendering on ints. -/
def pyStr : Value → String
  | .int n => if n < 0 then "-" ++ decimalString n.natAbs else decimalString n.natAbs
  | .str s => s

/-! ### Dataframes -/

/-- One dataframe row: an association list from column name to cell value. -/
abbrev Row := List (String × Value)

/-- Reading a cell of a row by column name (missing column yields a dummy
value; the app only reads columns it has checked to be present). -/
def rowGet (r : Row) (c : String) : Value :=
  match r.find? (fun p => p.1 == c) with
  | some p => p.2
  | none => .str ""

/-- A pandas dataframe: its column index plus its rows. -/
structure DataFrame where
  cols : List String
  rows : List Row
deriving DecidableEq, Repr

/-- Line 158: `same_cluster_df = all_df[all_df["Cluster"] == predicted_cluster_id]`. -/
def sameClusterDf (df : DataFrame) (id : Value) : DataFrame :=
  { cols := df.cols,
    rows := df.rows.filter (fun r => valueEq (rowGet r "Cluster") id) }

/-- The sequence of values of one column, in row order (what `px.histogram`
receives as its `x` data). -/
def colData (df : DataFrame) (c : String) : List Value :=
  df.rows.map (fun r => rowGet r c)

/-- pandas `df.sort_values(c)`: a NEW dataframe whose rows are sorted by the
values of column `c`; the receiver is not mutated (`inplace` defaults to
`False`). -/
def sortValues (df : DataFrame) (c : String) : DataFrame :=
  { cols := df.cols,
    rows := df.rows.mergeSort (fun a b => valueLe (rowGet a c) (rowGet b c)) }

/-! ### `get_model_signature` (lines 46-56) -/

/-- The result of `Path.stat()` on the artifact: `some (st_mtime_ns, st_size)`
when the call succeeds, `none` when anything in the `try` block raises. -/
abbrev StatResult := Option (Nat × Nat)

/-- Lines 46-56: `f"{model_name}:{stt.st_mtime_ns}:{stt.st_size}"` on a
successful stat, the bare model name when the `except` clause fires. -/
def get_model_signature (model_name : String) (stat : StatResult) : String :=
  match stat with
  | some (mtime, size) =>
      model_name ++ ":" ++ decimalString mtime ++ ":" ++ decimalString size
  | none => model_name

/-! ### Cluster metadata (lines 61-71 and 142-149) -/

/-- One entry of `cfg/nazwy_klastrow_4.json`; either field may be absent
(the code reads them with `dict.get` and a default). -/
structure MetaEntry where
  name : Option String
  description : Option String
deriving DecidableEq, Repr

/-- The parsed JSON mapping: cluster-id string → entry. -/
abbrev Meta := List (String × MetaEntry)

/-- Python `cluster_meta[k]` lookup / `k in cluster_meta` membership. -/
def metaLookup (meta : Meta) (k : String) : Option MetaEntry :=
  match meta.find? (fun p => p.1 == k) with
  | some p => some p.2
  | none => none

/-- Line 137: `predicted_cluster_id_str = str(predicted_cluster_id)`. -/
def predicted_cluster_id_str (id : Value) : String := pyStr id

/-- Line 158 compares the dataset's `Cluster` column against the predicted
id exactly as produced by the model — no conversion is applied. -/
def filterValue (id : Value) : Value := id

/-- Lines 142-149: resolve the display name and description of the predicted
cluster, with the absent-key fallback and the per-field `dict.get` defaults. -/
def resolveNameDesc (meta : Meta) (id : Value) : String × String :=
  match metaLookup meta (predicted_cluster_id_str id) with
  | none =>
      ("Klaster " ++ pyStr id,
       "Brak opisu dla tego klastra. Uzupełnij plik cfg/nazwy_klastrow_4.json.")
  | some e =>
      (e.name.getD ("Klaster " ++ pyStr id),
       e.description.getD "Brak opisu dla tego klastra.")

/-! ### Render events (Streamlit output of lines 154-197) -/

/-- One visible Streamlit output of the result section. A `chart` event
records the `x` column, the data series handed to `px.histogram`, and the
chart title. -/
inductive Ev where
  | header (s : String)
  | md (s : String)
  | metric (label : String) (n : Nat)
  | info (s : String)
  | chart (x : String) (data : List Value) (title : String)
deriving DecidableEq, Repr

/-- The `st.info` text of line 165. -/
def noPeersMsg : String :=
  "Brak osób w tej grupie (lub brak danych). Dodaj rekordy do data/data.csv."

/-- Lines 173-197: the five guarded `px.histogram` calls, in program order.
The age chart is drawn from `same_cluster_df.sort_values("age")`; every
later chart is drawn from `same_cluster_df` itself. -/
def renderCharts (df : DataFrame) : List Ev :=
  (if df.cols.contains "age" then
    [Ev.chart "age" (colData (sortValues df "age") "age") "Rozkład wieku w grupie"]
   else [])
  ++ (if df.cols.contains "edu_level" then
    [Ev.chart "edu_level" (colData df "edu_level") "Rozkład wykształcenia w grupie"]
   else [])
  ++ (if df.cols.contains "fav_animals" then
    [Ev.chart "fav_animals" (colData df "fav_animals") "Rozkład ulubionych zwierząt w grupie"]
   else [])
  ++ (if df.cols.contains "fav_place" then
    [Ev.chart "fav_place" (colData df "fav_place") "Rozkład ulubionych miejsc w grupie"]
   else [])
  ++ (if df.cols.contains "gender" then
    [Ev.chart "gender" (colData df "gender") "Rozkład płci w grupie"]
   else [])

/-- Lines 154-197: header, description, metric, and then either the
empty-group `st.info` (followed by `st.stop()`) or the five chart slots. -/
def renderResults (all_df : DataFrame) (id : Value) (meta : Meta) : List Ev :=
  let nd := resolveNameDesc meta id
  let scd := sameClusterDf all_df id
  [Ev.header ("Najbliżej Ci do grupy: " ++ nd.1),
   Ev.md nd.2,
   Ev.metric "Liczba osób w Twojej grupie" scd.rows.length]
  ++ (if scd.rows.isEmpty then [Ev.info noPeersMsg] else renderCharts scd)

/-! ### The whole render pass (lines 100-197) with its fatal halt points -/

/-- The four `st.error` + `st.stop()` sites of the script. -/
inductive Fatal where
  | missingMeta
  | missingData
  | bulkNoCluster
  | singleNoCluster
deriving DecidableEq, Repr

/-- The filesystem and model environment one render pass runs against.
`predict` is the opaque `predict_model(model, data=·)` collaborator. -/
structure PyEnv where
  metaFile : Option Meta
  dataFiles : String → Option DataFrame
  modelStat : StatResult
  predict : DataFrame → DataFrame

/-- Lines 61-71: load the metadata JSON or halt with a visible error. -/
def get_cluster_names_and_descriptions (env : PyEnv) : Except Fatal Meta :=
  match env.metaFile with
  | none => .error .missingMeta
  | some m => .ok m

/-- Lines 73-95: load the CSV at `data_path`, predict a cluster for every
row, validate the presence of the `Cluster` column. -/
def get_all_participants (env : PyEnv) (data_path : String) : Except Fatal DataFrame :=
  match env.dataFiles data_path with
  | none => .error .missingData
  | some all_df =>
      let dfc := env.predict all_df
      if dfc.cols.contains "Cluster" then .ok dfc else .error .bulkNoCluster

/-- Lines 112-118: the one-row dataframe built from the sidebar form. -/
def personDf (age edu_level fav_animals fav_place gender : String) : DataFrame :=
  { cols := ["age", "edu_level", "fav_animals", "fav_place", "gender"],
    rows := [[("age", .str age), ("edu_level", .str edu_level),
              ("fav_animals", .str fav_animals), ("fav_place", .str fav_place),
              ("gender", .str gender)]] }

/-- Line 136: `pred["Cluster"].values[0]` (the form frame has one row, so
the prediction result is read at its first row). -/
def firstClusterValue (df : DataFrame) : Value :=
  match df.rows with
  | r :: _ => rowGet r "Cluster"
  | [] => .str ""

/-- The path constants of lines 30-31. -/
def dataPath : String := "data/data.csv"

/-- Lines 123-197 as one pass: resources, bulk prediction, single-row
prediction with its validation, then the result section. An `Except.error`
is an `st.error` followed by `st.stop()`. -/
def runApp (env : PyEnv) (person : DataFrame) : Except Fatal (List Ev) := do
  let meta ← get_cluster_names_and_descriptions env
  let all_df ← get_all_participants env dataPath
  let pred := env.predict person
  if pred.cols.contains "Cluster" then
    let id := firstClusterValue pred
    pure (renderResults all_df id meta)
  else
    .error .singleNoCluster

/-! ### The `st.cache_data` cache of `get_all_participants` (lines 73-74) -/

/-- The cache key of `get_all_participants`: the hashed arguments are the
dataset path and the model-signature string. `_model` begins with an
underscore, so Streamlit excludes it from the key. -/
abbrev GapKey := String × String

/-- One process-wide `st.cache_data` store for `get_all_participants`:
computed results by key. Only successful returns are cached (`st.stop`
raises, so a halted call stores nothing). -/
abbrev GapCache := List (GapKey × DataFrame)

/-- One cached call of `get_all_participants`: serve a stored value on a
key hit, otherwise run the body and store a successful result. -/
def gapCached (cache : GapCache) (env : PyEnv) (path sig : String) :
    Except Fatal DataFrame × GapCache :=
  match cache.find? (fun p => p.1 == (path, sig)) with
  | some entry => (.ok entry.2, cache)
  | none =>
      match get_all_participants env path with
      | .ok df => (.ok df, ((path, sig), df) :: cache)
      | .error e => (.error e, cache)

/-- Recognizer of chart events. -/
def isChartEv : Ev → Bool
  | .chart _ _ _ => true
  | _ => false

/-- Recognizer of the chart drawn for the column `c`. -/
def chartOn (c : String) : Ev → Bool
  | .chart x _ _ => x == c
  | _ => false

/-- A concrete two-row frame whose age order differs from its row order. -/
def dfPair : DataFrame :=
  { cols := ["age", "edu_level"],
    rows := [[("age", Value.str "b"), ("edu_level", Value.str "E1")],
             [("age", Value.str "a"), ("edu_level", Value.str "E2")]] }

/-- A concrete environment whose model artifact has byte size 1. -/
def envA : PyEnv :=
  { metaFile := some [],
    dataFiles := fun _ => some { cols := ["age"], rows := [] },
    modelStat := some (0, 1),
    predict := fun d => { cols := "Cluster" :: d.cols, rows := d.rows } }

/-- `envA` after the model artifact is replaced by one of byte size 2. -/
def envB : PyEnv :=
  { metaFile := some [],
    dataFiles := fun _ => some { cols := ["age"], rows := [] },
    modelStat := some (0, 2),
    predict := fun d => { cols := "Cluster" :: d.cols, rows := d.rows } }

/-! ### Evaluation helpers -/

theorem natDigits_of_lt {n : Nat} (h : n < 10) : natDigits n = [n] := by
  rw [natDigits]
  simp [h]

theorem decimalString_of_lt {n : Nat} (h : n < 10) :
    decimalString n = String.mk [digitCharOf n] := by
  rw [decimalString, natDigits_of_lt h]
  rfl

theorem pyStr_int_zero : pyStr (Value.int 0) = "0" := by
  have h1 : pyStr (Value.int 0) = decimalString 0 := by
    simp [pyStr]
  rw [h1, decimalString_of_lt (by decide)]
  rfl

/-! ### Signature injectivity -/

theorem get_model_signature_some_inj {name : String} {m s m' s' : Nat}
    (h : get_model_signature name (some (m, s))
        = get_model_signature name (some (m', s'))) :
    m = m' ∧ s = s' := by
  have hdata : name.data ++ (':' ::
        ((natDigits m).map digitCharOf ++ ':' :: (natDigits s).map digitCharOf))
      = name.data ++ (':' ::
        ((natDigits m').map digitCharOf ++ ':' :: (natDigits s').map digitCharOf)) := by
    have h0 := String.ext_iff.mp h
    simp only [get_model_signature, String.data_append] at h0
    have hd : ∀ k : Nat, (decimalString k).data = (natDigits k).map digitCharOf :=
      fun k => rfl
    simp only [hd] at h0
    simpa [List.append_assoc] using h0
  have h3 := List.append_cancel_left hdata
  simp only [List.cons.injEq, true_and] at h3
  have h4 := append_sep_inj (colon_not_mem_decimal m) (colon_not_mem_decimal m') h3
  constructor
  · exact natDigits_inj
      (map_digitCharOf_inj (natDigits_all_lt m) (natDigits_all_lt m') h4.1)
  · exact natDigits_inj
      (map_digitCharOf_inj (natDigits_all_lt s) (natDigits_all_lt s') h4.2)

/-! ## Claims -/

/-- C1: for every augmented participant dataset and every predicted cluster
id, the length of the filtered dataframe (the displayed metric) equals the
count of rows whose assigned `Cluster` equals that id, and a row is in the
filtered dataframe exactly when it is a row of the dataset whose assigned
cluster matches — the filter neither gains nor loses rows. -/
theorem same_cluster_metric_exact (df : DataFrame) (id : Value) :
    (sameClusterDf df id).rows.length
        = df.rows.countP (fun r => valueEq (rowGet r "Cluster") id)
      ∧ ∀ r : Row, r ∈ (sameClusterDf df id).rows
          ↔ r ∈ df.rows ∧ valueEq (rowGet r "Cluster") id = true := by
  constructor
  · simp [sameClusterDf, List.countP_eq_length_filter]
  · intro r
    simp [sameClusterDf, List.mem_filter]

/-- C6: `get_model_signature` is determined by the artifact's mtime and
size — two stat results give the same signature string exactly when both
mtime and size agree — and a failed stat returns the bare model name. -/
theorem get_model_signature_sensitivity (name : String) (m s m' s' : Nat) :
    (get_model_signature name (some (m, s)) = get_model_signature name (some (m', s'))
        ↔ m = m' ∧ s = s')
      ∧ get_model_signature name none = name := by
  refine ⟨⟨fun h => get_model_signature_some_inj h, ?_⟩, rfl⟩
  rintro ⟨rfl, rfl⟩
  rfl

/-- C9: `get_model_signature` is total: every stat outcome (success or any
caught exception, modelled by `none`) yields a string — either the
mtime-and-size signature or the bare model name. -/
theorem get_model_signature_total (name : String) (stat : StatResult) :
    (stat = none ∧ get_model_signature name stat = name)
      ∨ (∃ m s, stat = some (m, s) ∧ get_model_signature name stat
          = name ++ ":" ++ decimalString m ++ ":" ++ decimalString s) := by
  cases stat with
  | none => exact .inl ⟨rfl, rfl⟩
  | some p => exact .inr ⟨p.1, p.2, rfl, rfl⟩

/-- C2 counterexample: for a metadata entry whose `name` field is missing,
the code generates the default "Klaster 0" (line 148), not "Cluster 0" as
the claim states. -/
theorem missing_name_default_is_klaster_cex :
    (resolveNameDesc [("0", ⟨none, some "d"⟩)] (Value.int 0)).1 = "Klaster 0"
      ∧ (resolveNameDesc [("0", ⟨none, some "d"⟩)] (Value.int 0)).1 ≠ "Cluster 0" := by
  have hres : (resolveNameDesc [("0", ⟨none, some "d"⟩)] (Value.int 0)).1 = "Klaster 0" := by
    simp only [resolveNameDesc, predicted_cluster_id_str, pyStr_int_zero, metaLookup,
      List.find?]
    norm_num
    rfl
  refine ⟨hres, ?_⟩
  rw [hres]
  decide

/-- C2 (amended): for every predicted id, when the string form of the id is
a key of the metadata the rendered header is "Najbliżej Ci do grupy: " ++
the entry's name (with generated defaults "Klaster {id}" and the generic
no-description string when a field is missing inside the entry); when the
key is absent the name is "Klaster {id}" and the description the generic
fallback; the header and description events rendered are exactly those. -/
theorem cluster_label_resolution (meta : Meta) (id : Value) (all_df : DataFrame) :
    (resolveNameDesc meta id).1
        = ((metaLookup meta (predicted_cluster_id_str id)).map
            (fun e => e.name.getD ("Klaster " ++ pyStr id))).getD ("Klaster " ++ pyStr id)
      ∧ (resolveNameDesc meta id).2
        = ((metaLookup meta (predicted_cluster_id_str id)).map
            (fun e => e.description.getD "Brak opisu dla tego klastra.")).getD
            "Brak opisu dla tego klastra. Uzupełnij plik cfg/nazwy_klastrow_4.json."
      ∧ Ev.header ("Najbliżej Ci do grupy: " ++ (resolveNameDesc meta id).1)
          ∈ renderResults all_df id meta
      ∧ Ev.md (resolveNameDesc meta id).2 ∈ renderResults all_df id meta
      ∧ resolveNameDesc [("0", ⟨some "Explorers", some "Curious and active."⟩)]
          (Value.int 0) = ("Explorers", "Curious and active.")
      ∧ resolveNameDesc [] (Value.int 0)
          = ("Klaster 0",
             "Brak opisu dla tego klastra. Uzupełnij plik cfg/nazwy_klastrow_4.json.") := by
  refine ⟨?_, ?_, ?_, ?_, ?_, ?_⟩
  · cases h : metaLookup meta (predicted_cluster_id_str id) <;>
      simp [resolveNameDesc, h]
  · cases h : metaLookup meta (predicted_cluster_id_str id) <;>
      simp [resolveNameDesc, h]
  · simp [renderResults]
  · simp [renderResults]
  · simp only [resolveNameDesc, predicted_cluster_id_str, pyStr_int_zero, metaLookup,
      List.find?]
    norm_num
  · simp only [resolveNameDesc, predicted_cluster_id_str, pyStr_int_zero, metaLookup,
      List.find?, pyStr_int_zero]
    rfl

/-- C5 counterexample: for an integer-typed predicted id the value used in
the dataframe filter is the raw integer while the metadata key is the
string "0" — the two consumption paths use different representations. -/
theorem cluster_id_paths_mixed_cex :
    filterValue (Value.int 0) ≠ Value.str (predicted_cluster_id_str (Value.int 0))
      ∧ predicted_cluster_id_str (Value.int 0) = "0"
      ∧ valueEq (filterValue (Value.int 0)) (Value.str "0") = false := by
  refine ⟨?_, pyStr_int_zero, rfl⟩
  rw [show predicted_cluster_id_str (Value.int 0) = "0" from pyStr_int_zero]
  decide

/-- C5 (amended): the metadata lookup key is always the string form of the
predicted id, while the filter compares the raw id unchanged; the two
consumption paths use one common representation exactly when the model
yields a string-typed id. -/
theorem cluster_id_paths_normalization (id : Value) :
    filterValue id = Value.str (predicted_cluster_id_str id) ↔ ∃ s, id = Value.str s := by
  cases id with
  | int n => simp [filterValue, predicted_cluster_id_str]
  | str s => simp [filterValue, predicted_cluster_id_str, pyStr]

theorem mem_if_singleton {α : Type} {e x : α} {b : Bool} :
    e ∈ (if b then [x] else ([] : List α)) ↔ b = true ∧ e = x := by
  cases b <;> simp

theorem renderCharts_is_chart (df : DataFrame) :
    ∀ e ∈ renderCharts df, isChartEv e = true := by
  intro e he
  unfold renderCharts at he
  simp only [List.mem_append, mem_if_singleton] at he
  rcases he with ((((⟨_, rfl⟩ | ⟨_, rfl⟩) | ⟨_, rfl⟩) | ⟨_, rfl⟩) | ⟨_, rfl⟩) <;> rfl

/-- C3: in every render the empty-group informational message appears
exactly when the filtered peer group has no rows; in that case the
displayed metric is 0 and no chart events appear; otherwise no message
appears and the chart events are exactly those of the chart section. -/
theorem empty_group_render (all_df : DataFrame) (id : Value) (meta : Meta) :
    Ev.metric "Liczba osób w Twojej grupie" (sameClusterDf all_df id).rows.length
        ∈ renderResults all_df id meta
      ∧ (Ev.metric "Liczba osób w Twojej grupie" 0 ∈ renderResults all_df id meta
          ↔ (sameClusterDf all_df id).rows.isEmpty = true)
      ∧ (Ev.info noPeersMsg ∈ renderResults all_df id meta
          ↔ (sameClusterDf all_df id).rows.isEmpty = true)
      ∧ (renderResults all_df id meta).filter isChartEv
          = (if (sameClusterDf all_df id).rows.isEmpty then []
             else renderCharts (sameClusterDf all_df id)) := by
  have hchart := renderCharts_is_chart (sameClusterDf all_df id)
  by_cases h : (sameClusterDf all_df id).rows.isEmpty
  · have hlen : (sameClusterDf all_df id).rows.length = 0 := by
      rw [List.isEmpty_iff] at h
      simp [h]
    refine ⟨?_, ?_, ?_, ?_⟩
    · simp [renderResults]
    · simp [renderResults, h, hlen]
    · simp [renderResults, h]
    · simp [renderResults, h, List.filter, isChartEv]
  · have hlen : (sameClusterDf all_df id).rows.length ≠ 0 := by
      intro h0
      apply h
      rw [List.isEmpty_iff]
      exact List.length_eq_zero.mp h0
    have hnochart0 : Ev.metric "Liczba osób w Twojej grupie" 0
        ∉ renderCharts (sameClusterDf all_df id) := by
      intro hmem
      exact absurd (hchart _ hmem) (by simp [isChartEv])
    have hnoinfo : Ev.info noPeersMsg ∉ renderCharts (sameClusterDf all_df id) := by
      intro hmem
      exact absurd (hchart _ hmem) (by simp [isChartEv])
    refine ⟨?_, ?_, ?_, ?_⟩
    · simp [renderResults]
    · simp [renderResults, h, hlen, hnochart0]
      omega
    · simp [renderResults, h, hnoinfo]
    · simp only [renderResults, h, if_neg, List.filter_append, List.filter]
      simp [isChartEv, List.filter_eq_self.mpr hchart, h]

/-- C4: the render pass halts with `missingMeta` exactly when the metadata
file is absent, with `missingData` exactly when the metadata loaded but the
dataset file is absent, with `bulkNoCluster` exactly when the bulk
prediction result lacks the `Cluster` column, with `singleNoCluster`
exactly when the single-row prediction result lacks it, and returns output
exactly when all four checks pass. -/
theorem pipeline_fatal_points (env : PyEnv) (person : DataFrame) :
    (runApp env person = .error .missingMeta ↔ env.metaFile = none)
      ∧ (runApp env person = .error .missingData
          ↔ env.metaFile.isSome = true ∧ env.dataFiles dataPath = none)
      ∧ (runApp env person = .error .bulkNoCluster
          ↔ env.metaFile.isSome = true
            ∧ ∃ d, env.dataFiles dataPath = some d
                ∧ "Cluster" ∉ (env.predict d).cols)
      ∧ (runApp env person = .error .singleNoCluster
          ↔ env.metaFile.isSome = true
            ∧ (∃ d, env.dataFiles dataPath = some d
                ∧ "Cluster" ∈ (env.predict d).cols)
            ∧ "Cluster" ∉ (env.predict person).cols)
      ∧ ((∃ evs, runApp env person = .ok evs)
          ↔ env.metaFile.isSome = true
            ∧ (∃ d, env.dataFiles dataPath = some d
                ∧ "Cluster" ∈ (env.predict d).cols)
            ∧ "Cluster" ∈ (env.predict person).cols) := by
  rcases hm : env.metaFile with _ | meta
  · simp [runApp, get_cluster_names_and_descriptions, hm, Bind.bind, Except.bind]
  · rcases hd : env.dataFiles dataPath with _ | d
    · simp [runApp, get_cluster_names_and_descriptions, get_all_participants, hm, hd,
        Bind.bind, Except.bind]
    · by_cases hb : "Cluster" ∈ (env.predict d).cols
      · by_cases hs : "Cluster" ∈ (env.predict person).cols
        · simp [runApp, get_cluster_names_and_descriptions, get_all_participants, hm, hd,
            hb, hs, Bind.bind, Except.bind, Pure.pure, Except.pure]
        · simp [runApp, get_cluster_names_and_descriptions, get_all_participants, hm, hd,
            hb, hs, Bind.bind, Except.bind, Pure.pure, Except.pure]
      · simp [runApp, get_cluster_names_and_descriptions, get_all_participants, hm, hd,
          hb, Bind.bind, Except.bind]

/-! ### Sorting facts for the age chart -/

theorem charListLe_trans : ∀ {xs ys zs : List Char},
    charListLe xs ys = true → charListLe ys zs = true → charListLe xs zs = true := by
  intro xs
  induction xs with
  | nil => intro ys zs _ _; rfl
  | cons x xt ih =>
    intro ys zs hab hbc
    cases ys with
    | nil => simp [charListLe] at hab
    | cons y yt =>
      cases zs with
      | nil => simp [charListLe] at hbc
      | cons z zt =>
        simp only [charListLe] at hab hbc ⊢
        split_ifs at hab hbc ⊢ <;> try rfl
        all_goals first
          | omega
          | (exact ih hab hbc)

theorem charListLe_total : ∀ (xs ys : List Char),
    charListLe xs ys || charListLe ys xs := by
  intro xs
  induction xs with
  | nil => intro ys; simp [charListLe]
  | cons x xt ih =>
    intro ys
    cases ys with
    | nil => simp [charListLe]
    | cons y yt =>
      simp only [charListLe]
      split_ifs <;> simp_all

theorem valueLe_trans (a b c : Value) (hab : valueLe a b = true)
    (hbc : valueLe b c = true) : valueLe a c = true := by
  cases a <;> cases b <;> cases c <;> simp_all [valueLe]
  · omega
  · exact charListLe_trans hab hbc

theorem valueLe_total (a b : Value) : valueLe a b || valueLe b a := by
  cases a <;> cases b <;> simp [valueLe]
  · omega
  · rw [← Bool.or_eq_true]
    exact charListLe_total _ _

theorem filter_chart_block (c x : String) (d : List Value) (t : String) (b : Bool) :
    (if b then [Ev.chart x d t] else []).filter (chartOn c)
      = if (x == c) && b then [Ev.chart x d t] else [] := by
  cases b <;> cases hx : (x == c) <;> simp [List.filter, chartOn, hx]

/-- C8: the chart section renders exactly one histogram per attribute
column that is present in the filtered dataset (an absent column yields
none), the age chart's data is the age column of the age-sorted copy —
sorted under the value order and a permutation of the original column —
and every other chart's data is the column in natural row order. -/
theorem one_chart_per_present_column (df : DataFrame) :
    (renderCharts df).filter (chartOn "age")
        = (if df.cols.contains "age" then
            [Ev.chart "age" (colData (sortValues df "age") "age") "Rozkład wieku w grupie"]
           else [])
      ∧ (renderCharts df).filter (chartOn "edu_level")
        = (if df.cols.contains "edu_level" then
            [Ev.chart "edu_level" (colData df "edu_level") "Rozkład wykształcenia w grupie"]
           else [])
      ∧ (renderCharts df).filter (chartOn "fav_animals")
        = (if df.cols.contains "fav_animals" then
            [Ev.chart "fav_animals" (colData df "fav_animals")
              "Rozkład ulubionych zwierząt w grupie"]
           else [])
      ∧ (renderCharts df).filter (chartOn "fav_place")
        = (if df.cols.contains "fav_place" then
            [Ev.chart "fav_place" (colData df "fav_place")
              "Rozkład ulubionych miejsc w grupie"]
           else [])
      ∧ (renderCharts df).filter (chartOn "gender")
        = (if df.cols.contains "gender" then
            [Ev.chart "gender" (colData df "gender") "Rozkład płci w grupie"]
           else [])
      ∧ List.Pairwise (fun a b => valueLe a b = true) (colData (sortValues df "age") "age")
      ∧ (colData (sortValues df "age") "age").Perm (colData df "age") := by
  refine ⟨?_, ?_, ?_, ?_, ?_, ?_, ?_⟩
  · unfold renderCharts
    simp only [List.filter_append, filter_chart_block]
    simp
  · unfold renderCharts
    simp only [List.filter_append, filter_chart_block]
    simp
  · unfold renderCharts
    simp only [List.filter_append, filter_chart_block]
    simp
  · unfold renderCharts
    simp only [List.filter_append, filter_chart_block]
    simp
  · unfold renderCharts
    simp only [List.filter_append, filter_chart_block]
    simp
  · have hs := @List.sorted_mergeSort Row
      (fun a b => valueLe (rowGet a "age") (rowGet b "age"))
      (fun a b c hab hbc => valueLe_trans _ _ _ hab hbc)
      (fun a b => valueLe_total _ _)
      df.rows
    have hcd : colData (sortValues df "age") "age"
        = (df.rows.mergeSort
            (fun a b => valueLe (rowGet a "age") (rowGet b "age"))).map
          (fun r => rowGet r "age") := rfl
    rw [hcd, List.pairwise_map]
    simpa using hs
  · exact (List.mergeSort_perm df.rows _).map _

unseal List.merge List.mergeSort in
/-- C10: `sort_values` is not in-place — the age chart draws from a sorted
copy while every later histogram observes the filtered frame's original
rows in original order; on `dfPair` sorting by age genuinely reverses the
rows, yet the `edu_level` chart still receives the unsorted column. -/
theorem age_sort_not_inplace (df : DataFrame) :
    (renderCharts df).filter (chartOn "edu_level")
        = (if df.cols.contains "edu_level" then
            [Ev.chart "edu_level" (colData df "edu_level") "Rozkład wykształcenia w grupie"]
           else [])
      ∧ (renderCharts df).filter (chartOn "fav_animals")
        = (if df.cols.contains "fav_animals" then
            [Ev.chart "fav_animals" (colData df "fav_animals")
              "Rozkład ulubionych zwierząt w grupie"]
           else [])
      ∧ (renderCharts df).filter (chartOn "fav_place")
        = (if df.cols.contains "fav_place" then
            [Ev.chart "fav_place" (colData df "fav_place")
              "Rozkład ulubionych miejsc w grupie"]
           else [])
      ∧ (renderCharts df).filter (chartOn "gender")
        = (if df.cols.contains "gender" then
            [Ev.chart "gender" (colData df "gender") "Rozkład płci w grupie"]
           else [])
      ∧ (sortValues df "age").cols = df.cols
      ∧ colData dfPair "edu_level" = [Value.str "E1", Value.str "E2"]
      ∧ colData (sortValues dfPair "age") "edu_level" = [Value.str "E2", Value.str "E1"]
      ∧ (renderCharts dfPair).filter (chartOn "edu_level")
          = [Ev.chart "edu_level" [Value.str "E1", Value.str "E2"]
             "Rozkład wykształcenia w grupie"] := by
  refine ⟨?_, ?_, ?_, ?_, rfl, by decide, by decide, ?_⟩
  · unfold renderCharts
    simp only [List.filter_append, filter_chart_block]
    simp
  · unfold renderCharts
    simp only [List.filter_append, filter_chart_block]
    simp
  · unfold renderCharts
    simp only [List.filter_append, filter_chart_block]
    simp
  · unfold renderCharts
    simp only [List.filter_append, filter_chart_block]
    simp
  · decide

/-- C7: the augmented-dataset cache is keyed by (dataset path, model
signature) only: starting from an empty cache, a first render computes
`get_all_participants`, a second render with the same path and signature
returns exactly the recomputation's result, and after the model artifact is
replaced by one of a different byte size the new signature misses the cache
and the dataset is recomputed instead of served stale. -/
theorem cache_refresh_on_new_signature (env env2 : PyEnv) (p sig sig2 : String)
    (m sz m2 sz2 : Nat) (hsz : sz ≠ sz2)
    (hsig : sig = get_model_signature "model_4" (some (m, sz)))
    (hsig2 : sig2 = get_model_signature "model_4" (some (m2, sz2))) :
    (gapCached [] env p sig).1 = get_all_participants env p
      ∧ (gapCached (gapCached [] env p sig).2 env p sig).1 = get_all_participants env p
      ∧ (gapCached (gapCached [] env p sig).2 env2 p sig2).1
          = get_all_participants env2 p := by
  have hne : sig ≠ sig2 := by
    intro he
    apply hsz
    rw [hsig, hsig2] at he
    exact (get_model_signature_some_inj he).2
  refine ⟨?_, ?_, ?_⟩
  · cases hgap : get_all_participants env p with
    | error e => simp [gapCached, hgap, List.find?]
    | ok df => simp [gapCached, hgap, List.find?]
  · cases hgap : get_all_participants env p with
    | error e => simp [gapCached, hgap, List.find?]
    | ok df => simp [gapCached, hgap, List.find?]
  · cases hgap : get_all_participants env p with
    | error e =>
      cases hgap2 : get_all_participants env2 p with
      | error e2 => simp [gapCached, hgap, hgap2, List.find?]
      | ok df2 => simp [gapCached, hgap, hgap2, List.find?]
    | ok df =>
      cases hgap2 : get_all_participants env2 p with
      | error e2 => simp [gapCached, hgap, hgap2, List.find?, hne]
      | ok df2 => simp [gapCached, hgap, hgap2, List.find?, hne]

/-- Witness for C7: the cache-refresh theorem applied to the concrete
environments `envA` and `envB` (artifact sizes 1 and 2). -/
theorem cache_refresh_on_new_signature_witness :
    ((1 : Nat) ≠ 2)
      ∧ ((gapCached [] envA "data/data.csv"
            (get_model_signature "model_4" (some (0, 1)))).1
          = get_all_participants envA "data/data.csv"
        ∧ (gapCached (gapCached [] envA "data/data.csv"
              (get_model_signature "model_4" (some (0, 1)))).2 envA "data/data.csv"
            (get_model_signature "model_4" (some (0, 1)))).1
          = get_all_participants envA "data/data.csv"
        ∧ (gapCached (gapCached [] envA "data/data.csv"
              (get_model_signature "model_4" (some (0, 1)))).2 envB "data/data.csv"
            (get_model_signature "model_4" (some (0, 2)))).1
          = get_all_participants envB "data/data.csv") :=
  ⟨by decide,
   cache_refresh_on_new_signature envA envB "data/data.csv"
     (get_model_signature "model_4" (some (0, 1)))
     (get_model_signature "model_4" (some (0, 2))) 0 1 0 2 (by decide) rfl rfl⟩

end FindFriends
